import Mathlib

/-!
Shallow embedding of the Substrate pallet in `pallets/template/src/lib.rs`.

The pallet stores a single optional `u32` (`Something`), exposes four
dispatchable calls (`do_something`, `cause_error`, `write_key_to_ocs`,
`extrinsic`), and runs an offchain worker that reads back the auxiliary
record written via offchain indexing.

Modelling conventions:
- bytes are `List Nat` with entries `< 256` (all encoders produce such lists);
- `T::BlockNumber` is instantiated as `u32` (the node-template runtime), so
  its SCALE encoding is the fixed-width 4-byte little-endian form;
- machine integers are `Nat` with explicit `< 2^32` / `< 2^64` bounds where
  overflow matters;
- `offchain_index::set` has no failure channel at the call site; the calls
  take an `adapterOk : Bool` flag standing for an arbitrary success/failure
  behaviour of the auxiliary store adapter, which the pallet code never
  consults.
-/

namespace Pallet

/-- Bytes are lists of naturals; every encoder below emits values `< 256`. -/
abbrev Bytes := List Nat

/-- The constant `ONCHAIN_TX_KEY = b"my_pallet::indexing1"` (line 27 of the source). -/
def ONCHAIN_TX_KEY : Bytes :=
  [109, 121, 95, 112, 97, 108, 108, 101, 116, 58, 58,
   105, 110, 100, 101, 120, 105, 110, 103, 49]

/-- The tag bytes `b"write_key_to_ocs"` used at line 119. -/
def writeKeyTag : Bytes :=
  [119, 114, 105, 116, 101, 95, 107, 101, 121, 95, 116, 111, 95, 111, 99, 115]

/-- The tag bytes `b"submit_number_unsigned"` used at line 131. -/
def submitTag : Bytes :=
  [115, 117, 98, 109, 105, 116, 95, 110, 117, 109, 98, 101, 114, 95, 117, 110,
   115, 105, 103, 110, 101, 100]

/-- Fixed-width little-endian SCALE encoding of a `u32`. -/
def u32LE (n : Nat) : Bytes :=
  [n % 256, n / 256 % 256, n / 65536 % 256, n / 16777216 % 256]

/-- Fixed-width little-endian SCALE encoding of a `u64`. -/
def u64LE (n : Nat) : Bytes :=
  [n % 256, n / 2 ^ 8 % 256, n / 2 ^ 16 % 256, n / 2 ^ 24 % 256,
   n / 2 ^ 32 % 256, n / 2 ^ 40 % 256, n / 2 ^ 48 % 256, n / 2 ^ 56 % 256]

/-- Minimal little-endian byte expansion of a natural number. -/
def natLEBytes (n : Nat) : Bytes :=
  if h : n = 0 then [] else n % 256 :: natLEBytes (n / 256)
decreasing_by exact Nat.div_lt_self (Nat.pos_of_ne_zero h) (by omega)

/-- Little-endian value of a byte list. -/
def leVal (bs : Bytes) : Nat :=
  bs.foldr (fun b acc => b + 256 * acc) 0

/-- SCALE compact encoding of a natural number (all four modes). -/
def compactEncode (n : Nat) : Bytes :=
  if n < 64 then [4 * n]
  else if n < 16384 then [(4 * n + 1) % 256, (4 * n + 1) / 256]
  else if n < 1073741824 then
    [(4 * n + 2) % 256, (4 * n + 2) / 256 % 256,
     (4 * n + 2) / 65536 % 256, (4 * n + 2) / 16777216 % 256]
  else
    (4 * ((natLEBytes n).length - 4) + 3) % 256 :: natLEBytes n

/-- SCALE compact decoding: returns the value and the remaining bytes. -/
def compactDecode : Bytes → Option (Nat × Bytes)
  | [] => none
  | b :: rest =>
    if b % 4 = 0 then some (b / 4, rest)
    else if b % 4 = 1 then
      match rest with
      | b1 :: rest1 => some (b / 4 + 64 * b1, rest1)
      | [] => none
    else if b % 4 = 2 then
      match rest with
      | b1 :: b2 :: b3 :: rest1 =>
        some (b / 4 + 64 * b1 + 16384 * b2 + 4194304 * b3, rest1)
      | _ => none
    else
      if b / 4 + 4 ≤ rest.length then
        some (leVal (rest.take (b / 4 + 4)), rest.drop (b / 4 + 4))
      else none

/-- The struct `IndexingData(Vec<u8>, u64)` (line 30 of the source). -/
structure IndexingData where
  tag : Bytes
  value : Nat
deriving DecidableEq, Repr

/-- SCALE encoding of `IndexingData`: compact-length-prefixed tag bytes
followed by the fixed-width `u64` value. -/
def indexingDataEncode (d : IndexingData) : Bytes :=
  compactEncode d.tag.length ++ d.tag ++ u64LE d.value

/-- SCALE decoding of `IndexingData`; fails (returns `none`) on truncated
input, mirroring `Decode::decode` returning `Err`. Trailing bytes are
ignored, as in SCALE. -/
def indexingDataDecode (bs : Bytes) : Option IndexingData :=
  match compactDecode bs with
  | none => none
  | some (len, rest) =>
    if len ≤ rest.length then
      match rest.drop len with
      | b0 :: b1 :: b2 :: b3 :: b4 :: b5 :: b6 :: b7 :: _ =>
        some ⟨rest.take len,
              b0 + 2 ^ 8 * b1 + 2 ^ 16 * b2 + 2 ^ 24 * b3 +
              2 ^ 32 * b4 + 2 ^ 40 * b5 + 2 ^ 48 * b6 + 2 ^ 56 * b7⟩
      | _ => none
    else none

/-- Function `derived_key` (lines 168-176): `ONCHAIN_TX_KEY ++ b"/" ++ encoded_bn`,
where `encoded_bn` is the SCALE encoding of the `u32` block number. -/
def derived_key (block_number : Nat) : Bytes :=
  ONCHAIN_TX_KEY ++ [47] ++ u32LE block_number

/-- Pallet event (lines 54-58): `SomethingStored { something, who }`.
`AccountId` is abstracted as `Nat`. -/
inductive Event where
  | somethingStored (something : Nat) (who : Nat)
deriving DecidableEq, Repr

/-- Pallet errors (lines 61-67). -/
inductive PalletError where
  | NoneValue
  | StorageOverflow
deriving DecidableEq, Repr

/-- Dispatch-level error: either the upstream `BadOrigin` from
`ensure_signed`, or a pallet module error. -/
inductive DispatchError where
  | badOrigin
  | module (e : PalletError)
deriving DecidableEq, Repr

/-- Call origin, as supplied by the dispatch harness. -/
inductive Origin where
  | signed (who : Nat)
  | root
  | unsigned
deriving DecidableEq, Repr

/-- Function `ensure_signed`: yields the signer for a signed origin, fails otherwise. -/
def ensure_signed : Origin → Option Nat
  | .signed who => some who
  | _ => none

/-- Consensus chain state owned by the pallet: the `Something` storage value
(line 48) and the deposited events. -/
structure ChainState where
  something : Option Nat
  events : List Event
deriving DecidableEq, Repr

/-- Rust `u32::checked_add`: `some (a + b)` unless the sum overflows 32 bits. -/
def checked_add_u32 (a b : Nat) : Option Nat :=
  if a + b < 2 ^ 32 then some (a + b) else none

/-- Call `do_something` (lines 78-91): store the argument and deposit
`SomethingStored`. Returns the dispatch result with the post-call state. -/
def do_something (st : ChainState) (origin : Origin) (something : Nat) :
    Except DispatchError Unit × ChainState :=
  match ensure_signed origin with
  | none => (.error .badOrigin, st)
  | some who =>
    (.ok (), ⟨some something, st.events ++ [.somethingStored something who]⟩)

/-- Call `cause_error` (lines 96-111): read `Something`; `NoneValue` if unset,
otherwise `checked_add 1` with `StorageOverflow` on overflow, else store the
incremented value. No event is deposited. -/
def cause_error (st : ChainState) (origin : Origin) :
    Except DispatchError Unit × ChainState :=
  match ensure_signed origin with
  | none => (.error .badOrigin, st)
  | some _who =>
    match st.something with
    | none => (.error (.module .NoneValue), st)
    | some old =>
      match checked_add_u32 old 1 with
      | none => (.error (.module .StorageOverflow), st)
      | some newVal => (.ok (), ⟨some newVal, st.events⟩)

/-- Outcome of a dispatchable that may also write to offchain-index
storage: dispatch result, post-call chain state, and the list of
`offchain_index::set(key, value)` effects it performed. -/
structure CallOutcome where
  result : Except DispatchError Unit
  state : ChainState
  offchainWrites : List (Bytes × Bytes)
deriving Repr

/-- Call `write_key_to_ocs` (lines 115-123): derive the key for the current block
number and `offchain_index::set` the encoded `IndexingData`. The source
(line 119) constructs the two-field struct `IndexingData` with only the tag
argument — a type error in Rust; the missing `u64` field is modelled as the
`u64` default `0` (the struct derives `Default`). `adapterOk` stands for an
arbitrary auxiliary-store behaviour; the code never consults it. -/
def write_key_to_ocs (st : ChainState) (origin : Origin) (block_number : Nat)
    (adapterOk : Bool) : CallOutcome :=
  match ensure_signed origin with
  | none => ⟨.error .badOrigin, st, []⟩
  | some _who =>
    let key := derived_key block_number
    let data : IndexingData := ⟨writeKeyTag, 0⟩
    ⟨.ok (), st, [(key, indexingDataEncode data)]⟩

/-- Call `extrinsic` (lines 127-134): derive the key for the current block number
and `offchain_index::set` the encoded `IndexingData` carrying the
caller-supplied `number`. -/
def extrinsic (st : ChainState) (origin : Origin) (block_number : Nat)
    (number : Nat) (adapterOk : Bool) : CallOutcome :=
  match ensure_signed origin with
  | none => ⟨.error .badOrigin, st, []⟩
  | some _who =>
    let key := derived_key block_number
    let data : IndexingData := ⟨submitTag, number⟩
    ⟨.ok (), st, [(key, indexingDataEncode data)]⟩

/-- Local diagnostic produced by the offchain worker: either the found key
and decoded payload, or the read/decode error log line. -/
inductive WorkerLog where
  | found (key : Bytes) (data : IndexingData)
  | readError
deriving DecidableEq, Repr

/-- Hook `offchain_worker` (lines 139-150): recompute the key for the block
number, read the node-local store, decode; log the data on success, log an
error line on absence or decode failure. It touches no chain state, which
the model makes explicit by threading the state through unchanged. The
node-local store is an arbitrary function `store : Bytes → Option Bytes`
(`StorageValueRef::get` absence and retention included). -/
def offchain_worker (store : Bytes → Option Bytes) (block_number : Nat)
    (st : ChainState) : WorkerLog × ChainState :=
  let key := derived_key block_number
  match store key with
  | some bytes =>
    match indexingDataDecode bytes with
    | some data => (.found key data, st)
    | none => (.readError, st)
  | none => (.readError, st)

/-! ## Helper lemmas -/

/-- SCALE round-trip for `IndexingData` with a single-byte compact length
prefix (tag shorter than 64 bytes) and an in-range `u64` value. -/
theorem indexingData_round_trip (d : IndexingData) (htag : d.tag.length < 64)
    (hval : d.value < 2 ^ 64) :
    indexingDataDecode (indexingDataEncode d) = some d := by
  obtain ⟨tag, v⟩ := d
  simp only at htag hval
  have henc : indexingDataEncode ⟨tag, v⟩ = 4 * tag.length :: (tag ++ u64LE v) := by
    simp [indexingDataEncode, compactEncode, htag]
  have hdec : compactDecode (4 * tag.length :: (tag ++ u64LE v))
      = some (tag.length, tag ++ u64LE v) := by
    simp [compactDecode, Nat.mul_mod_right, Nat.mul_div_cancel_left]
  have hlen : tag.length ≤ (tag ++ u64LE v).length := by
    simp [u64LE]
  rw [henc]
  unfold indexingDataDecode
  rw [hdec]
  simp only [if_pos hlen, List.take_left, List.drop_left]
  simp only [u64LE]
  simp only [IndexingData.mk.injEq, Option.some.injEq]
  refine ⟨trivial, ?_⟩
  omega

/-- The extrinsic tag `b"submit_number_unsigned"` is 22 bytes long. -/
theorem submitTag_length_lt : submitTag.length < 64 := by decide

/-! ## Claims -/

/-- C1: for the fixed namespace `ONCHAIN_TX_KEY`, `derived_key` is
deterministic and injective over `u32` block heights: two heights map to
the same key exactly when they are equal. -/
theorem derived_key_deterministic_injective (h1 h2 : Nat)
    (hb1 : h1 < 2 ^ 32) (hb2 : h2 < 2 ^ 32) :
    derived_key h1 = derived_key h2 ↔ h1 = h2 := by
  constructor
  · intro h
    simp [derived_key, ONCHAIN_TX_KEY, u32LE] at h
    omega
  · intro h
    rw [h]

/-- Witness for C1 at heights 0 and 1. -/
theorem derived_key_deterministic_injective_witness :
    derived_key 0 = derived_key 1 ↔ (0 : Nat) = 1 :=
  derived_key_deterministic_injective 0 1 (by decide) (by decide)

/-- C2: if the Write Path call `extrinsic` executes at height `hgt` with a
signed origin and payload number `num`, and the auxiliary record is
retained (the node-local store returns exactly the bytes the call wrote at
the derived key), then the Worker Read-Back at height `hgt` decodes exactly
the stored payload `IndexingData(b"submit_number_unsigned", num)`. -/
theorem write_then_worker_round_trip (st st' : ChainState) (w hgt num : Nat)
    (a : Bool) (store : Bytes → Option Bytes) (hnum : num < 2 ^ 64)
    (hretained : store (derived_key hgt)
      = ((extrinsic st (.signed w) hgt num a).offchainWrites.map Prod.snd).head?) :
    (offchain_worker store hgt st').1
      = .found (derived_key hgt) ⟨submitTag, num⟩ := by
  have hwrites : (extrinsic st (.signed w) hgt num a).offchainWrites
      = [(derived_key hgt, indexingDataEncode ⟨submitTag, num⟩)] := rfl
  rw [hwrites] at hretained
  simp only [List.map, List.head?] at hretained
  have hrt : indexingDataDecode (indexingDataEncode ⟨submitTag, num⟩)
      = some ⟨submitTag, num⟩ :=
    indexingData_round_trip ⟨submitTag, num⟩ submitTag_length_lt hnum
  simp only [offchain_worker, hretained, hrt]

/-- Witness for C2: a store retaining the record written at height 2 with
payload number 7. -/
theorem write_then_worker_round_trip_witness :
    (offchain_worker
        (fun k => if k = derived_key 2
          then some (indexingDataEncode ⟨submitTag, 7⟩) else none)
        2 ⟨none, []⟩).1
      = .found (derived_key 2) ⟨submitTag, 7⟩ :=
  write_then_worker_round_trip ⟨none, []⟩ ⟨none, []⟩ 1 2 7 true _
    (by decide) (by decide)

/-- C3: the Write Path calls `write_key_to_ocs` and `extrinsic` executing at
height `hgt` write under exactly `derived_key hgt`, and the Worker Read-Back
for height `hgt` reads exactly `derived_key hgt`: its outcome depends only
on the store's value at that key. Both sides use the single shared
derivation `derived_key`. -/
theorem write_worker_key_agreement (st st' : ChainState) (w hgt num : Nat)
    (a : Bool) (store store' : Bytes → Option Bytes)
    (hagree : store (derived_key hgt) = store' (derived_key hgt)) :
    ((write_key_to_ocs st (.signed w) hgt a).offchainWrites.map Prod.fst
        = [derived_key hgt]) ∧
    ((extrinsic st (.signed w) hgt num a).offchainWrites.map Prod.fst
        = [derived_key hgt]) ∧
    offchain_worker store hgt st' = offchain_worker store' hgt st' := by
  refine ⟨rfl, rfl, ?_⟩
  simp only [offchain_worker, hagree]

/-- Witness for C3 with two different stores agreeing at the derived key. -/
theorem write_worker_key_agreement_witness :
    ((write_key_to_ocs ⟨none, []⟩ (.signed 1) 3 true).offchainWrites.map Prod.fst
        = [derived_key 3]) ∧
    ((extrinsic ⟨none, []⟩ (.signed 1) 3 5 true).offchainWrites.map Prod.fst
        = [derived_key 3]) ∧
    offchain_worker (fun _ => none) 3 ⟨none, []⟩
      = offchain_worker (fun k => if k = [] then some [] else none) 3 ⟨none, []⟩ :=
  write_worker_key_agreement ⟨none, []⟩ ⟨none, []⟩ 1 3 5 true _ _ (by decide)

/-- C5: incrementing via `cause_error` when the stored counter is
`u32::MAX = 2 ^ 32 - 1` fails with `StorageOverflow` and leaves the whole
chain state (in particular the stored value) unchanged. -/
theorem cause_error_overflow (st : ChainState) (w : Nat)
    (hmax : st.something = some (2 ^ 32 - 1)) :
    cause_error st (.signed w) = (.error (.module .StorageOverflow), st) := by
  simp [cause_error, ensure_signed, hmax, checked_add_u32]

/-- Witness for C5 at the concrete state holding `u32::MAX`. -/
theorem cause_error_overflow_witness :
    cause_error ⟨some (2 ^ 32 - 1), []⟩ (.signed 0)
      = (.error (.module .StorageOverflow), ⟨some (2 ^ 32 - 1), []⟩) :=
  cause_error_overflow ⟨some (2 ^ 32 - 1), []⟩ 0 rfl

/-- C6: invoking `cause_error` when `Something` has never been set fails
with `NoneValue` and performs no write: the chain state is returned
unchanged. -/
theorem cause_error_missing_state (st : ChainState) (w : Nat)
    (hnone : st.something = none) :
    cause_error st (.signed w) = (.error (.module .NoneValue), st) := by
  simp [cause_error, ensure_signed, hnone]

/-- Witness for C6 at the empty state. -/
theorem cause_error_missing_state_witness :
    cause_error ⟨none, []⟩ (.signed 0) = (.error (.module .NoneValue), ⟨none, []⟩) :=
  cause_error_missing_state ⟨none, []⟩ 0 rfl

/-- C7: for every signed origin and every auxiliary-store behaviour
(`adapterOk` arbitrary), `write_key_to_ocs` and `extrinsic` return `Ok`;
their dispatch result never depends on the adapter flag, the only
non-`Ok` result for any origin is the upstream `BadOrigin`, and the
primary chain state is never rolled back (it is returned unchanged). -/
theorem write_path_isolation (st : ChainState) (hgt num w : Nat) (a : Bool)
    (o : Origin) :
    (write_key_to_ocs st (.signed w) hgt a).result = .ok () ∧
    (extrinsic st (.signed w) hgt num a).result = .ok () ∧
    ((write_key_to_ocs st o hgt a).result = .ok () ∨
      (write_key_to_ocs st o hgt a).result = .error .badOrigin) ∧
    ((extrinsic st o hgt num a).result = .ok () ∨
      (extrinsic st o hgt num a).result = .error .badOrigin) ∧
    (write_key_to_ocs st o hgt a).result = (write_key_to_ocs st o hgt true).result ∧
    (extrinsic st o hgt num a).result = (extrinsic st o hgt num true).result ∧
    (write_key_to_ocs st o hgt a).state = st ∧
    (extrinsic st o hgt num a).state = st := by
  cases o <;> simp [write_key_to_ocs, extrinsic, ensure_signed]

/-- C8: the Worker Read-Back never modifies chain state, and both an absent
record and a decode failure produce only the error log line (`readError`):
total, no retry, no fatal outcome. -/
theorem worker_absence_tolerance (store : Bytes → Option Bytes) (hgt : Nat)
    (st : ChainState) :
    ((offchain_worker store hgt st).2 = st) ∧
    (store (derived_key hgt) = none →
      (offchain_worker store hgt st).1 = .readError) ∧
    (∀ bs, store (derived_key hgt) = some bs → indexingDataDecode bs = none →
      (offchain_worker store hgt st).1 = .readError) := by
  refine ⟨?_, ?_, ?_⟩
  · unfold offchain_worker
    cases hsk : store (derived_key hgt) with
    | none => simp [hsk]
    | some bs => cases hdc : indexingDataDecode bs <;> simp [hsk, hdc]
  · intro hnone
    simp [offchain_worker, hnone]
  · intro bs hsome hdec
    simp [offchain_worker, hsome, hdec]

/-- Witness for C8: an always-empty store, and a store returning bytes on
which decoding fails. -/
theorem worker_absence_tolerance_witness :
    ((offchain_worker (fun _ => none) 4 ⟨none, []⟩).1 = .readError) ∧
    ((offchain_worker (fun _ => some []) 4 ⟨none, []⟩).1 = .readError) :=
  ⟨(worker_absence_tolerance (fun _ => none) 4 ⟨none, []⟩).2.1 rfl,
   (worker_absence_tolerance (fun _ => some []) 4 ⟨none, []⟩).2.2 [] rfl rfl⟩

/-- C4 counterexample: starting from the empty state, `do_something 41`
followed by `cause_error` leaves storage holding 42, but the event list
contains only the `SomethingStored 41` record from the first call —
`cause_error` deposits no event, so no event with value 42 is ever
emitted, refuting the claim's second-call event. -/
theorem scenario_counterexample :
    (cause_error (do_something ⟨none, []⟩ (.signed 7) 41).2 (.signed 7)).2.something
        = some 42 ∧
    (cause_error (do_something ⟨none, []⟩ (.signed 7) 41).2 (.signed 7)).2.events
        = [.somethingStored 41 7] ∧
    Event.somethingStored 42 7 ∉
      (cause_error (do_something ⟨none, []⟩ (.signed 7) 41).2 (.signed 7)).2.events := by
  refine ⟨rfl, rfl, ?_⟩
  decide

/-- C4 (amended): the first call `do_something 41` stores 41 and emits
`SomethingStored` with value 41 and the caller identity; the second call
`cause_error` succeeds and increments storage to 42 but emits no event —
only `do_something` emits the structured record with the new value and the
caller. -/
theorem scenario_amended (w : Nat) :
    (do_something ⟨none, []⟩ (.signed w) 41).1 = .ok () ∧
    (do_something ⟨none, []⟩ (.signed w) 41).2
        = ⟨some 41, [.somethingStored 41 w]⟩ ∧
    (cause_error ⟨some 41, [.somethingStored 41 w]⟩ (.signed w)).1 = .ok () ∧
    (cause_error ⟨some 41, [.somethingStored 41 w]⟩ (.signed w)).2
        = ⟨some 42, [.somethingStored 41 w]⟩ :=
  ⟨rfl, rfl, rfl, rfl⟩

/-- C9: evaluation of the payload actually written by `extrinsic`: the
record is the compact-length-prefixed tag `b"submit_number_unsigned"`
(prefix byte `88 = 22 <<< 2`) followed by the fixed-width `u64` number, and
the two call tags are distinct. (The claim's tag-only payload for
`write_key_to_ocs` does not exist in the code: line 119 constructs the
two-field struct `IndexingData` with a single argument, a type error.) -/
theorem extrinsic_payload_tagged :
    (extrinsic ⟨none, []⟩ (.signed 1) 5 7 true).offchainWrites
        = [(derived_key 5, 88 :: (submitTag ++ u64LE 7))] ∧
    writeKeyTag ≠ submitTag := by
  exact ⟨rfl, by decide⟩

/-- C10: for every signed origin, prior chain state, height and adapter
behaviour, `write_key_to_ocs` and `extrinsic` leave the chain state (and
in particular `Something`) exactly unchanged; their complete outcome is the
`Ok` result plus the single offchain-index write at the derived key. -/
theorem write_path_frame (st : ChainState) (w hgt num : Nat) (a : Bool) :
    write_key_to_ocs st (.signed w) hgt a
        = ⟨.ok (), st, [(derived_key hgt, indexingDataEncode ⟨writeKeyTag, 0⟩)]⟩ ∧
    extrinsic st (.signed w) hgt num a
        = ⟨.ok (), st, [(derived_key hgt, indexingDataEncode ⟨submitTag, num⟩)]⟩ :=
  ⟨rfl, rfl⟩

end Pallet
